import Mathlib

/-!
Shallow embedding of the OpenPilot CameraStab module
(src/flight/modules/CameraStab/camerastab.c) over the rationals.
Every float of the C code is modelled as a `ℚ`, machine ticks
(`portTickType`) as `Nat`, and the fallible accessory fetch
(`AccessoryDesiredInstGet`) as an `Option`-valued accessor.
-/

/-- Axes of CameraStabSettings input arrays, in the iteration order of the
processing loop (indices CAMERASTABSETTINGS_INPUT_ROLL/PITCH/YAW). -/
inductive Axis : Type
  | roll
  | pitch
  | yaw
  deriving DecidableEq

/-- Gimbal geometry (CameraStabSettings GimbalType enum). -/
inductive GimbalType : Type
  | generic
  | rollPitchMixed
  | yawRollPitch
  | yawPitchRoll
  deriving DecidableEq

/-- Per-axis stabilization mode (CameraStabSettings StabilizationMode enum). -/
inductive StabilizationMode : Type
  | attitude
  | axisLock
  deriving DecidableEq

/-- The per-axis slice of CameraStabSettingsData.  `input = none` models
CAMERASTABSETTINGS_INPUT_NONE; `input = some n` models accessory channel
`Input.data[i] - CAMERASTABSETTINGS_INPUT_ACCESSORY0 = n`. -/
structure AxisSettings : Type where
  input : Option Nat
  stabilizationMode : StabilizationMode
  inputRange : ℚ
  inputRate : ℚ
  outputRange : ℚ
  responseTime : ℚ
  feedForward : ℚ
  accelTime : ℚ
  decelTime : ℚ
  deriving DecidableEq

/-- CameraStabSettingsData: per-axis settings plus the global fields used by
the tick (MaxAxisLockRate, MaxAccel, GimbalType, Servo1/2PitchReverse). -/
structure CameraStabSettingsData : Type where
  axis : Axis → AxisSettings
  maxAxisLockRate : ℚ
  maxAccel : ℚ
  gimbalType : GimbalType
  servo1PitchReverse : Bool
  servo2PitchReverse : Bool

/-- The module's private state `struct CameraStab_data` (camerastab.c lines
64-77), with the per-axis float arrays as functions `Axis → ℚ`. -/
structure CameraStab_data : Type where
  lastSysTime : Nat
  inputs : Axis → ℚ
  attitudeFiltered : Axis → ℚ
  ffLastAttitude : Axis → ℚ
  ffLastAttitudeFiltered : Axis → ℚ
  ffFilterAccumulator : Axis → ℚ

/-- The three CameraDesired fields written by the tick
(CameraDesiredRollOrServo1Set, CameraDesiredPitchOrServo2Set,
CameraDesiredYawSet). -/
structure CameraDesired : Type where
  rollOrServo1 : ℚ
  pitchOrServo2 : ℚ
  yaw : ℚ
  deriving DecidableEq

/-- The `bound` helper (camerastab.c lines 279-284). -/
def bound (val limit : ℚ) : ℚ :=
  if val > limit then limit
  else if val < -limit then -limit
  else val

/-- SAMPLE_PERIOD_MS (camerastab.c line 59). -/
def SAMPLE_PERIOD_MS : ℚ := 10

/-- The dT computation of attitudeUpdated (camerastab.c lines 159-162):
`thisSysTime > lastSysTime ? (thisSysTime - lastSysTime) * portTICK_RATE_MS
: SAMPLE_PERIOD_MS`, with the tick counter and portTICK_RATE_MS as naturals. -/
def dT_millis (thisSysTime lastSysTime tickRateMs : Nat) : ℚ :=
  if thisSysTime > lastSysTime then (((thisSysTime - lastSysTime) * tickRateMs : ℕ) : ℚ)
  else SAMPLE_PERIOD_MS

/-- The control-input block of attitudeUpdated (camerastab.c lines 173-191):
returns the new value of `csd->inputs[i]`.  `accessoryGet ch = none` models
`AccessoryDesiredInstGet` returning non-zero (failure); on failure, or when no
input source is configured, the stored value is returned unchanged. -/
def processInput (cameraStab : CameraStabSettingsData) (dT_ms : ℚ)
    (accessoryGet : Nat → Option ℚ) (inputs_i : ℚ) (i : Axis) : ℚ :=
  match (cameraStab.axis i).input with
  | none => inputs_i
  | some ch =>
    match accessoryGet ch with
    | none => inputs_i
    | some accessoryVal =>
      match (cameraStab.axis i).stabilizationMode with
      | .attitude => accessoryVal * (cameraStab.axis i).inputRange
      | .axisLock =>
        let input_rate := accessoryVal * (cameraStab.axis i).inputRate
        if |input_rate| > cameraStab.maxAxisLockRate then
          bound (inputs_i + input_rate * (1 / 1000) * dT_ms) (cameraStab.axis i).inputRange
        else inputs_i

/-- The low-pass filter expression of attitudeUpdated (camerastab.c line 213):
`((rt * attitudeFiltered) + (dT * attitude)) / (rt + dT)`.  Note that the C
guard on line 211, `if (cameraStab.ResponseTime.data)`, tests the address of
the ResponseTime array, which is never null, so this expression is evaluated
and stored for every axis on every tick. -/
def lpfStep (rt filteredPrev dT_ms attitude : ℚ) : ℚ :=
  (rt * filteredPrev + dT_ms * attitude) / (rt + dT_ms)

/-- The gimbalTypeCorrection computation of applyFeedForward (camerastab.c
lines 289-315).  `attitudeState` supplies AttitudeStatePitchGet /
AttitudeStateRollGet. -/
def gimbalTypeCorrection (cameraStab : CameraStabSettingsData) (index : Axis)
    (attitudeState : Axis → ℚ) : ℚ :=
  match cameraStab.gimbalType with
  | .generic => 1
  | .rollPitchMixed => 1
  | .yawRollPitch =>
    if index = Axis.roll then
      ((cameraStab.axis .pitch).outputRange - |attitudeState .pitch|)
        / (cameraStab.axis .pitch).outputRange
    else 1
  | .yawPitchRoll =>
    if index = Axis.pitch then
      ((cameraStab.axis .roll).outputRange - |attitudeState .roll|)
        / (cameraStab.axis .roll).outputRange
    else 1

/-- The decay step of applyFeedForward (camerastab.c lines 323-327):
`filter = (accumulator > 0 ? AccelTime : DecelTime) / dT; if (filter < 1)
filter = 1; accumulator -= accumulator / filter`. -/
def ffDecay (dT_ms accumulator accelTime decelTime : ℚ) : ℚ :=
  let filter0 := (if accumulator > 0 then accelTime else decelTime) / dT_ms
  let filter := if filter0 < 1 then 1 else filter0
  accumulator - accumulator / filter

/-- The acceleration-limit step of applyFeedForward (camerastab.c lines
331-338): clamp the change of attitude against ffLastAttitudeFiltered to
`maxDelta`. -/
def ffAccelLimit (attitude ffLastAttitudeFiltered maxDelta : ℚ) : ℚ :=
  let delta := attitude - ffLastAttitudeFiltered
  if |delta| > maxDelta then
    ffLastAttitudeFiltered + (if delta > 0 then maxDelta else -maxDelta)
  else attitude

/-- Result of applyFeedForward: the new `*attitude` and the new values of the
three per-axis feed-forward state cells at `index`. -/
structure FFResult : Type where
  attitude : ℚ
  ffLastAttitude : ℚ
  ffFilterAccumulator : ℚ
  ffLastAttitudeFiltered : ℚ
  deriving DecidableEq

/-- applyFeedForward (camerastab.c lines 287-340), acting on the state cells
at `index`.  `fla`, `flaf`, `facc` are `csd->ffLastAttitude[index]`,
`csd->ffLastAttitudeFiltered[index]`, `csd->ffFilterAccumulator[index]` on
entry. -/
def applyFeedForward (index : Axis) (dT_ms attitude : ℚ)
    (cameraStab : CameraStabSettingsData) (attitudeState : Axis → ℚ)
    (fla flaf facc : ℚ) : FFResult :=
  let correction := gimbalTypeCorrection cameraStab index attitudeState
  let accumulator := facc + (attitude - fla) * (cameraStab.axis index).feedForward * correction
  let attitude1 := attitude + accumulator
  let accumulator2 := ffDecay dT_ms accumulator
      (cameraStab.axis index).accelTime (cameraStab.axis index).decelTime
  let attitude2 := attitude1 + accumulator2
  let maxDelta := cameraStab.maxAccel * (1 / 1000) * dT_ms
  let attitude3 := ffAccelLimit attitude2 flaf maxDelta
  ⟨attitude3, attitude, accumulator2, attitude3⟩

/-- Elevon channel 1 (camerastab.c lines 249-255): the value passed to
CameraDesiredRollOrServo1Set in RollPitchMixed geometry. -/
def elevonChannel1 (servo1PitchReverse : Bool) (elevon_pitch elevon_roll : ℚ) : ℚ :=
  if servo1PitchReverse then ((1 - elevon_pitch) + elevon_roll) / 2
  else (elevon_pitch + elevon_roll) / 2

/-- Elevon channel 2 (camerastab.c lines 258-264): the value passed to
CameraDesiredPitchOrServo2Set in RollPitchMixed geometry. -/
def elevonChannel2 (servo2PitchReverse : Bool) (elevon_pitch elevon_roll : ℚ) : ℚ :=
  if servo2PitchReverse then ((1 - elevon_pitch) - elevon_roll) / 2
  else (elevon_pitch - elevon_roll) / 2

/-- One iteration of the per-axis loop of attitudeUpdated (camerastab.c lines
172-227), up to and including the computation of `output` on line 226 but
before the output-channel switch: input processing, attitude read, low-pass
filter (whose C guard is always true, see `lpfStep`), feed-forward when
`FeedForward.data[i]` is non-zero, and the bounded normalized output. -/
def axisStep (cameraStab : CameraStabSettingsData) (dT_ms : ℚ)
    (accessoryGet : Nat → Option ℚ) (attitudeState : Axis → ℚ)
    (csd : CameraStab_data) (i : Axis) : CameraStab_data × ℚ :=
  let newInput := processInput cameraStab dT_ms accessoryGet (csd.inputs i) i
  let attitude0 := attitudeState i
  let attitudeF := lpfStep (cameraStab.axis i).responseTime (csd.attitudeFiltered i)
      dT_ms attitude0
  let csd1 : CameraStab_data :=
    { csd with inputs := Function.update csd.inputs i newInput,
               attitudeFiltered := Function.update csd.attitudeFiltered i attitudeF }
  if (cameraStab.axis i).feedForward ≠ 0 then
    let r := applyFeedForward i dT_ms attitudeF cameraStab attitudeState
        (csd1.ffLastAttitude i) (csd1.ffLastAttitudeFiltered i) (csd1.ffFilterAccumulator i)
    let csd2 : CameraStab_data :=
      { csd1 with ffLastAttitude := Function.update csd1.ffLastAttitude i r.ffLastAttitude,
                  ffLastAttitudeFiltered :=
                    Function.update csd1.ffLastAttitudeFiltered i r.ffLastAttitudeFiltered,
                  ffFilterAccumulator :=
                    Function.update csd1.ffFilterAccumulator i r.ffFilterAccumulator }
    (csd2, bound ((r.attitude + csd2.inputs i) / (cameraStab.axis i).outputRange) 1)
  else
    (csd1, bound ((attitudeF + csd1.inputs i) / (cameraStab.axis i).outputRange) 1)

/-- attitudeUpdated (camerastab.c lines 147-277): one tick.  The loop runs
over Roll, Pitch, Yaw in that order; the output-channel switch is summarised
by its net effect on the three CameraDesired fields: in RollPitchMixed
geometry Roll's output is held as `elevon_roll` and both servo channels are
produced while processing Pitch, otherwise each axis output goes to its own
channel. -/
def attitudeUpdated (cameraStab : CameraStabSettingsData)
    (thisSysTime tickRateMs : Nat) (accessoryGet : Nat → Option ℚ)
    (attitudeState : Axis → ℚ) (csd : CameraStab_data) :
    CameraStab_data × CameraDesired :=
  let dT_ms := dT_millis thisSysTime csd.lastSysTime tickRateMs
  let csd0 : CameraStab_data := { csd with lastSysTime := thisSysTime }
  let stepRoll := axisStep cameraStab dT_ms accessoryGet attitudeState csd0 .roll
  let stepPitch := axisStep cameraStab dT_ms accessoryGet attitudeState stepRoll.1 .pitch
  let stepYaw := axisStep cameraStab dT_ms accessoryGet attitudeState stepPitch.1 .yaw
  if cameraStab.gimbalType = GimbalType.rollPitchMixed then
    (stepYaw.1,
      { rollOrServo1 := elevonChannel1 cameraStab.servo1PitchReverse stepPitch.2 stepRoll.2,
        pitchOrServo2 := elevonChannel2 cameraStab.servo2PitchReverse stepPitch.2 stepRoll.2,
        yaw := stepYaw.2 })
  else
    (stepYaw.1, { rollOrServo1 := stepRoll.2, pitchOrServo2 := stepPitch.2, yaw := stepYaw.2 })

/-- Builds the settings in which axis `i` has no input source configured
(CAMERASTABSETTINGS_INPUT_NONE), all other settings unchanged.  Used to state
that a failed accessory fetch behaves exactly like the no-input-source case. -/
def inputNone (cameraStab : CameraStabSettingsData) (i : Axis) : CameraStabSettingsData :=
  { cameraStab with
    axis := Function.update cameraStab.axis i { cameraStab.axis i with input := none } }

/-- Division-checking variant of `gimbalTypeCorrection`: identical control
flow, but returns `none` instead of performing a division whose divisor (the
orthogonal axis's configured output range) is zero. -/
def gimbalTypeCorrectionChecked (cameraStab : CameraStabSettingsData) (index : Axis)
    (attitudeState : Axis → ℚ) : Option ℚ :=
  match cameraStab.gimbalType with
  | .generic => some 1
  | .rollPitchMixed => some 1
  | .yawRollPitch =>
    if index = Axis.roll then
      if (cameraStab.axis .pitch).outputRange = 0 then none
      else some (((cameraStab.axis .pitch).outputRange - |attitudeState .pitch|)
        / (cameraStab.axis .pitch).outputRange)
    else some 1
  | .yawPitchRoll =>
    if index = Axis.pitch then
      if (cameraStab.axis .roll).outputRange = 0 then none
      else some (((cameraStab.axis .roll).outputRange - |attitudeState .roll|)
        / (cameraStab.axis .roll).outputRange)
    else some 1

/-- Division-checking variant of `applyFeedForward`, propagating the guard of
`gimbalTypeCorrectionChecked`. -/
def applyFeedForwardChecked (index : Axis) (dT_ms attitude : ℚ)
    (cameraStab : CameraStabSettingsData) (attitudeState : Axis → ℚ)
    (fla flaf facc : ℚ) : Option FFResult :=
  match gimbalTypeCorrectionChecked cameraStab index attitudeState with
  | none => none
  | some correction =>
    let accumulator := facc + (attitude - fla) * (cameraStab.axis index).feedForward * correction
    let attitude1 := attitude + accumulator
    let accumulator2 := ffDecay dT_ms accumulator
        (cameraStab.axis index).accelTime (cameraStab.axis index).decelTime
    let attitude2 := attitude1 + accumulator2
    let maxDelta := cameraStab.maxAccel * (1 / 1000) * dT_ms
    let attitude3 := ffAccelLimit attitude2 flaf maxDelta
    some ⟨attitude3, attitude, accumulator2, attitude3⟩

/-- Division-checking variant of `axisStep`: identical control flow, but
returns `none` instead of performing the servo-output division by
`OutputRange.data[i]`, or the geometry-correction division, when the divisor
is zero. -/
def axisStepChecked (cameraStab : CameraStabSettingsData) (dT_ms : ℚ)
    (accessoryGet : Nat → Option ℚ) (attitudeState : Axis → ℚ)
    (csd : CameraStab_data) (i : Axis) : Option (CameraStab_data × ℚ) :=
  if (cameraStab.axis i).outputRange = 0 then none
  else
    let newInput := processInput cameraStab dT_ms accessoryGet (csd.inputs i) i
    let attitudeF := lpfStep (cameraStab.axis i).responseTime (csd.attitudeFiltered i)
        dT_ms (attitudeState i)
    let csd1 : CameraStab_data :=
      { csd with inputs := Function.update csd.inputs i newInput,
                 attitudeFiltered := Function.update csd.attitudeFiltered i attitudeF }
    if (cameraStab.axis i).feedForward ≠ 0 then
      match applyFeedForwardChecked i dT_ms attitudeF cameraStab attitudeState
          (csd1.ffLastAttitude i) (csd1.ffLastAttitudeFiltered i) (csd1.ffFilterAccumulator i) with
      | none => none
      | some r =>
        let csd2 : CameraStab_data :=
          { csd1 with ffLastAttitude := Function.update csd1.ffLastAttitude i r.ffLastAttitude,
                      ffLastAttitudeFiltered :=
                        Function.update csd1.ffLastAttitudeFiltered i r.ffLastAttitudeFiltered,
                      ffFilterAccumulator :=
                        Function.update csd1.ffFilterAccumulator i r.ffFilterAccumulator }
        some (csd2, bound ((r.attitude + csd2.inputs i) / (cameraStab.axis i).outputRange) 1)
    else some (csd1, bound ((attitudeF + csd1.inputs i) / (cameraStab.axis i).outputRange) 1)

/-- All-zero module state, as left by the memset of CameraStabInitialize. -/
def zeroCameraStab : CameraStab_data :=
  ⟨0, fun _ => 0, fun _ => 0, fun _ => 0, fun _ => 0, fun _ => 0⟩

/-- Per-axis settings with no input source, unit output range and all features off. -/
def plainAxisSettings : AxisSettings := ⟨none, .attitude, 0, 0, 1, 0, 0, 0, 0⟩

/-- RollPitchMixed settings with servo 1 pitch reversal enabled. -/
def mixedRev1Settings : CameraStabSettingsData :=
  ⟨fun _ => plainAxisSettings, 0, 0, .rollPitchMixed, true, false⟩

/-- Attitude sample that saturates the unmixed roll output at 1 and the unmixed pitch output at -1. -/
def cexAttitudeState : Axis → ℚ := fun a =>
  match a with
  | .roll => 5
  | .pitch => -5
  | .yaw => 0

/-- Generic-geometry settings whose response times are all 0. -/
def lpfBugSettings : CameraStabSettingsData :=
  ⟨fun _ => plainAxisSettings, 0, 0, .generic, false, false⟩

/-- Module state whose stored attitudeFiltered values are all 1. -/
def lpfBugState : CameraStab_data :=
  ⟨0, fun _ => 0, fun _ => 1, fun _ => 0, fun _ => 0, fun _ => 0⟩

/-- Generic-geometry settings with feed-forward gain 1 and maxAccel 5. -/
def ffFixture : CameraStabSettingsData :=
  ⟨fun _ => ⟨none, .attitude, 0, 0, 1, 0, 1, 4, 4⟩, 0, 5, .generic, false, false⟩

/-- Settings with every axis in AxisLock mode reading accessory channel 0. -/
def axisLockFixture : CameraStabSettingsData :=
  ⟨fun _ => ⟨some 0, .axisLock, 3, 2, 1, 0, 0, 0, 0⟩, 1, 0, .generic, false, false⟩

lemma bound_mem (v L : ℚ) (hL : 0 ≤ L) : -L ≤ bound v L ∧ bound v L ≤ L := by
  unfold bound
  split
  · constructor <;> linarith
  · split
    · constructor <;> linarith
    · constructor <;> push_neg at * <;> linarith

lemma abs_bound_le (v L : ℚ) (hL : 0 ≤ L) : |bound v L| ≤ L :=
  abs_le.mpr (bound_mem v L hL)

lemma axisStep_output_mem (s : CameraStabSettingsData) (dT : ℚ)
    (acc : Nat → Option ℚ) (ast : Axis → ℚ) (csd : CameraStab_data) (i : Axis) :
    -1 ≤ (axisStep s dT acc ast csd i).2 ∧ (axisStep s dT acc ast csd i).2 ≤ 1 := by
  simp only [axisStep]
  split <;> exact bound_mem _ _ (by norm_num)

lemma ffAccelLimit_diff_le (a f m : ℚ) (hm : 0 ≤ m) : |ffAccelLimit a f m - f| ≤ m := by
  simp only [ffAccelLimit]
  split
  · split
    · simpa using abs_le.mpr ⟨by linarith, le_refl m⟩
    · simpa using abs_le.mpr ⟨by linarith, by linarith⟩
  · next h => exact le_of_not_lt h

lemma ite_lt_one_eq_max (x : ℚ) : (if x < 1 then (1 : ℚ) else x) = max 1 x := by
  rcases lt_or_le x 1 with h | h
  · rw [if_pos h, max_eq_left h.le]
  · rw [if_neg (not_lt.mpr h), max_eq_right h]

lemma elevonChannel1_bounds (rev : Bool) (ep er : ℚ)
    (hep1 : -1 ≤ ep) (hep2 : ep ≤ 1) (her1 : -1 ≤ er) (her2 : er ≤ 1) :
    -1 ≤ elevonChannel1 rev ep er ∧
      elevonChannel1 rev ep er ≤ (if rev then 3/2 else 1) := by
  cases rev <;> simp [elevonChannel1] <;> constructor <;> linarith

lemma elevonChannel2_bounds (rev : Bool) (ep er : ℚ)
    (hep1 : -1 ≤ ep) (hep2 : ep ≤ 1) (her1 : -1 ≤ er) (her2 : er ≤ 1) :
    -1 ≤ elevonChannel2 rev ep er ∧
      elevonChannel2 rev ep er ≤ (if rev then 3/2 else 1) := by
  cases rev <;> simp [elevonChannel2] <;> constructor <;> linarith

lemma inputNone_gimbalType (s : CameraStabSettingsData) (i : Axis) :
    (inputNone s i).gimbalType = s.gimbalType := rfl

lemma inputNone_maxAccel (s : CameraStabSettingsData) (i : Axis) :
    (inputNone s i).maxAccel = s.maxAccel := rfl

lemma inputNone_outputRange (s : CameraStabSettingsData) (i j : Axis) :
    ((inputNone s i).axis j).outputRange = (s.axis j).outputRange := by
  by_cases h : j = i
  · subst h; simp [inputNone]
  · simp [inputNone, Function.update_noteq h]

lemma inputNone_responseTime (s : CameraStabSettingsData) (i j : Axis) :
    ((inputNone s i).axis j).responseTime = (s.axis j).responseTime := by
  by_cases h : j = i
  · subst h; simp [inputNone]
  · simp [inputNone, Function.update_noteq h]

lemma inputNone_feedForward (s : CameraStabSettingsData) (i j : Axis) :
    ((inputNone s i).axis j).feedForward = (s.axis j).feedForward := by
  by_cases h : j = i
  · subst h; simp [inputNone]
  · simp [inputNone, Function.update_noteq h]

lemma inputNone_accelTime (s : CameraStabSettingsData) (i j : Axis) :
    ((inputNone s i).axis j).accelTime = (s.axis j).accelTime := by
  by_cases h : j = i
  · subst h; simp [inputNone]
  · simp [inputNone, Function.update_noteq h]

lemma inputNone_decelTime (s : CameraStabSettingsData) (i j : Axis) :
    ((inputNone s i).axis j).decelTime = (s.axis j).decelTime := by
  by_cases h : j = i
  · subst h; simp [inputNone]
  · simp [inputNone, Function.update_noteq h]

lemma inputNone_gimbalTypeCorrection (s : CameraStabSettingsData) (i j : Axis)
    (ast : Axis → ℚ) :
    gimbalTypeCorrection (inputNone s i) j ast = gimbalTypeCorrection s j ast := by
  unfold gimbalTypeCorrection
  rw [inputNone_gimbalType]
  cases hg : s.gimbalType <;> simp [hg, inputNone_outputRange]

lemma inputNone_applyFeedForward (s : CameraStabSettingsData) (i : Axis)
    (dT_ms a : ℚ) (ast : Axis → ℚ) (fla flaf facc : ℚ) :
    applyFeedForward i dT_ms a (inputNone s i) ast fla flaf facc =
      applyFeedForward i dT_ms a s ast fla flaf facc := by
  simp only [applyFeedForward, inputNone_gimbalTypeCorrection, inputNone_feedForward,
    inputNone_accelTime, inputNone_decelTime, inputNone_maxAccel]

lemma gimbalTypeCorrectionChecked_some_iff (s : CameraStabSettingsData) (j : Axis)
    (ast : Axis → ℚ) :
    gimbalTypeCorrectionChecked s j ast = some (gimbalTypeCorrection s j ast) ↔
      ((s.gimbalType = GimbalType.yawRollPitch → j = Axis.roll →
          (s.axis Axis.pitch).outputRange ≠ 0) ∧
       (s.gimbalType = GimbalType.yawPitchRoll → j = Axis.pitch →
          (s.axis Axis.roll).outputRange ≠ 0)) := by
  cases hg : s.gimbalType
  · simp [gimbalTypeCorrectionChecked, gimbalTypeCorrection, hg]
  · simp [gimbalTypeCorrectionChecked, gimbalTypeCorrection, hg]
  · by_cases hj : j = Axis.roll
    · by_cases hz : (s.axis Axis.pitch).outputRange = 0 <;>
        simp [gimbalTypeCorrectionChecked, gimbalTypeCorrection, hg, hj, hz]
    · simp [gimbalTypeCorrectionChecked, gimbalTypeCorrection, hg, hj]
  · by_cases hj : j = Axis.pitch
    · by_cases hz : (s.axis Axis.roll).outputRange = 0 <;>
        simp [gimbalTypeCorrectionChecked, gimbalTypeCorrection, hg, hj, hz]
    · simp [gimbalTypeCorrectionChecked, gimbalTypeCorrection, hg, hj]

lemma gimbalTypeCorrectionChecked_none_or (s : CameraStabSettingsData) (j : Axis)
    (ast : Axis → ℚ) :
    gimbalTypeCorrectionChecked s j ast = none ∨
      gimbalTypeCorrectionChecked s j ast = some (gimbalTypeCorrection s j ast) := by
  cases hg : s.gimbalType
  · right; simp [gimbalTypeCorrectionChecked, gimbalTypeCorrection, hg]
  · right; simp [gimbalTypeCorrectionChecked, gimbalTypeCorrection, hg]
  · by_cases hj : j = Axis.roll
    · by_cases hz : (s.axis Axis.pitch).outputRange = 0
      · left; simp [gimbalTypeCorrectionChecked, hg, hj, hz]
      · right; simp [gimbalTypeCorrectionChecked, gimbalTypeCorrection, hg, hj, hz]
    · right; simp [gimbalTypeCorrectionChecked, gimbalTypeCorrection, hg, hj]
  · by_cases hj : j = Axis.pitch
    · by_cases hz : (s.axis Axis.roll).outputRange = 0
      · left; simp [gimbalTypeCorrectionChecked, hg, hj, hz]
      · right; simp [gimbalTypeCorrectionChecked, gimbalTypeCorrection, hg, hj, hz]
    · right; simp [gimbalTypeCorrectionChecked, gimbalTypeCorrection, hg, hj]

lemma applyFeedForwardChecked_some_iff (index : Axis) (dT_ms a : ℚ)
    (s : CameraStabSettingsData) (ast : Axis → ℚ) (fla flaf facc : ℚ) :
    applyFeedForwardChecked index dT_ms a s ast fla flaf facc =
        some (applyFeedForward index dT_ms a s ast fla flaf facc) ↔
      gimbalTypeCorrectionChecked s index ast = some (gimbalTypeCorrection s index ast) := by
  rcases gimbalTypeCorrectionChecked_none_or s index ast with h | h
  · simp [applyFeedForwardChecked, h]
  · simp [applyFeedForwardChecked, h, applyFeedForward]

/-- C1, amended: every value passed to the output sink is bounded: each channel value is at least -1, and at most 1, except that in RollPitchMixed geometry a combined elevon channel whose per-servo pitch-reversal flag is set is only guaranteed to be at most 3/2 (the claim's bound of 1 fails there, see the counterexample). -/
theorem C1_output_bounds (cameraStab : CameraStabSettingsData)
    (thisSysTime tickRateMs : Nat) (accessoryGet : Nat → Option ℚ)
    (attitudeState : Axis → ℚ) (csd : CameraStab_data) :
    (-1 ≤ (attitudeUpdated cameraStab thisSysTime tickRateMs accessoryGet attitudeState csd).2.rollOrServo1 ∧
      (attitudeUpdated cameraStab thisSysTime tickRateMs accessoryGet attitudeState csd).2.rollOrServo1 ≤
        (if cameraStab.gimbalType = GimbalType.rollPitchMixed ∧ cameraStab.servo1PitchReverse = true
         then 3/2 else 1)) ∧
    (-1 ≤ (attitudeUpdated cameraStab thisSysTime tickRateMs accessoryGet attitudeState csd).2.pitchOrServo2 ∧
      (attitudeUpdated cameraStab thisSysTime tickRateMs accessoryGet attitudeState csd).2.pitchOrServo2 ≤
        (if cameraStab.gimbalType = GimbalType.rollPitchMixed ∧ cameraStab.servo2PitchReverse = true
         then 3/2 else 1)) ∧
    (-1 ≤ (attitudeUpdated cameraStab thisSysTime tickRateMs accessoryGet attitudeState csd).2.yaw ∧
      (attitudeUpdated cameraStab thisSysTime tickRateMs accessoryGet attitudeState csd).2.yaw ≤ 1) := by
  obtain ⟨hr1, hr2⟩ := axisStep_output_mem cameraStab
    (dT_millis thisSysTime csd.lastSysTime tickRateMs) accessoryGet attitudeState
    { csd with lastSysTime := thisSysTime } Axis.roll
  obtain ⟨hp1, hp2⟩ := axisStep_output_mem cameraStab
    (dT_millis thisSysTime csd.lastSysTime tickRateMs) accessoryGet attitudeState
    (axisStep cameraStab (dT_millis thisSysTime csd.lastSysTime tickRateMs) accessoryGet
      attitudeState { csd with lastSysTime := thisSysTime } Axis.roll).1 Axis.pitch
  obtain ⟨hy1, hy2⟩ := axisStep_output_mem cameraStab
    (dT_millis thisSysTime csd.lastSysTime tickRateMs) accessoryGet attitudeState
    (axisStep cameraStab (dT_millis thisSysTime csd.lastSysTime tickRateMs) accessoryGet
      attitudeState
      (axisStep cameraStab (dT_millis thisSysTime csd.lastSysTime tickRateMs) accessoryGet
        attitudeState { csd with lastSysTime := thisSysTime } Axis.roll).1 Axis.pitch).1 Axis.yaw
  rcases em (cameraStab.gimbalType = GimbalType.rollPitchMixed) with hmix | hmix
  · simp only [attitudeUpdated, hmix, if_true, eq_self_iff_true, true_and]
    obtain ⟨h11, h12⟩ := elevonChannel1_bounds cameraStab.servo1PitchReverse _ _ hp1 hp2 hr1 hr2
    obtain ⟨h21, h22⟩ := elevonChannel2_bounds cameraStab.servo2PitchReverse _ _ hp1 hp2 hr1 hr2
    exact ⟨⟨h11, h12⟩, ⟨h21, h22⟩, hy1, hy2⟩
  · simp only [attitudeUpdated]
    rw [if_neg hmix, if_neg (fun hc => hmix hc.1), if_neg (fun hc => hmix hc.1)]
    exact ⟨⟨hr1, hr2⟩, ⟨hp1, hp2⟩, hy1, hy2⟩

/-- C1 as stated is false: in RollPitchMixed geometry with servo 1 pitch reversal enabled, attitudes that saturate the unmixed roll output at 1 and the unmixed pitch output at -1 make combined channel 1 equal 3/2, which is handed to the output sink although it lies outside [-1, 1]. -/
theorem C1_counterexample :
    (attitudeUpdated mixedRev1Settings 1 1 (fun _ => none) cexAttitudeState zeroCameraStab).2.rollOrServo1
      = 3 / 2 ∧
    ¬(-1 ≤ (attitudeUpdated mixedRev1Settings 1 1 (fun _ => none) cexAttitudeState
        zeroCameraStab).2.rollOrServo1 ∧
      (attitudeUpdated mixedRev1Settings 1 1 (fun _ => none) cexAttitudeState
        zeroCameraStab).2.rollOrServo1 ≤ 1) := by
  have h : (attitudeUpdated mixedRev1Settings 1 1 (fun _ => none) cexAttitudeState
      zeroCameraStab).2.rollOrServo1 = 3 / 2 := by
    norm_num [attitudeUpdated, axisStep, processInput, lpfStep, dT_millis, SAMPLE_PERIOD_MS,
      bound, elevonChannel1, elevonChannel2, mixedRev1Settings, plainAxisSettings,
      zeroCameraStab, cexAttitudeState, Function.update]
  rw [h]
  norm_num

/-- C2: for every axis, every non-negative maxAccel, every positive dT and any prior feed-forward state, after the acceleration-limit step the stored ffLastAttitudeFiltered differs from its previous value by at most maxAccel * dT / 1000; since the prior state is arbitrary, this bounds every consecutive pair of stored values over any sequence of attitude samples. -/
theorem C2_ff_accel_limit (index : Axis) (dT_ms attitude : ℚ)
    (cameraStab : CameraStabSettingsData) (attitudeState : Axis → ℚ)
    (fla flaf facc : ℚ) (hA : 0 ≤ cameraStab.maxAccel) (hdT : 0 < dT_ms) :
    |(applyFeedForward index dT_ms attitude cameraStab attitudeState fla flaf facc).ffLastAttitudeFiltered
      - flaf| ≤ cameraStab.maxAccel * dT_ms / 1000 := by
  simp only [applyFeedForward]
  calc |ffAccelLimit _ flaf (cameraStab.maxAccel * (1 / 1000) * dT_ms) - flaf|
      ≤ cameraStab.maxAccel * (1 / 1000) * dT_ms :=
        ffAccelLimit_diff_le _ _ _ (by positivity)
    _ = cameraStab.maxAccel * dT_ms / 1000 := by ring

/-- C2 applied at a concrete input. -/
theorem C2_witness :
    0 ≤ ffFixture.maxAccel ∧ 0 < (2 : ℚ) ∧
    |(applyFeedForward Axis.roll 2 7 ffFixture (fun _ => 0) 0 0 0).ffLastAttitudeFiltered - 0|
      ≤ ffFixture.maxAccel * 2 / 1000 :=
  ⟨by norm_num [ffFixture], by norm_num,
    C2_ff_accel_limit Axis.roll 2 7 ffFixture (fun _ => 0) 0 0 0 (by norm_num [ffFixture]) (by norm_num)⟩

/-- C3: in AxisLock mode with a configured input source and a successful fetch, if the rate pilotInput * inputRate satisfies |rate| <= maxAxisLockRate the stored trim is unchanged this tick; otherwise it advances by rate * dT / 1000 and is clamped to [-inputRange, inputRange], hence never exceeds the range in absolute value. -/
theorem C3_axislock (cameraStab : CameraStabSettingsData) (dT_ms accessoryVal inputs_i : ℚ)
    (i : Axis) (ch : Nat) (accessoryGet : Nat → Option ℚ)
    (hin : (cameraStab.axis i).input = some ch)
    (hacc : accessoryGet ch = some accessoryVal)
    (hmode : (cameraStab.axis i).stabilizationMode = .axisLock)
    (hrange : 0 ≤ (cameraStab.axis i).inputRange) :
    (|accessoryVal * (cameraStab.axis i).inputRate| ≤ cameraStab.maxAxisLockRate →
      processInput cameraStab dT_ms accessoryGet inputs_i i = inputs_i) ∧
    (cameraStab.maxAxisLockRate < |accessoryVal * (cameraStab.axis i).inputRate| →
      processInput cameraStab dT_ms accessoryGet inputs_i i =
        bound (inputs_i + accessoryVal * (cameraStab.axis i).inputRate * dT_ms / 1000)
          (cameraStab.axis i).inputRange ∧
      |processInput cameraStab dT_ms accessoryGet inputs_i i| ≤ (cameraStab.axis i).inputRange) := by
  simp only [processInput, hin, hacc, hmode]
  constructor
  · intro hle
    rw [if_neg (not_lt.mpr hle)]
  · intro hgt
    rw [if_pos hgt]
    have he : inputs_i + accessoryVal * (cameraStab.axis i).inputRate * (1 / 1000) * dT_ms =
        inputs_i + accessoryVal * (cameraStab.axis i).inputRate * dT_ms / 1000 := by ring
    rw [he]
    exact ⟨rfl, abs_bound_le _ _ hrange⟩

/-- C3 applied at a concrete input. -/
theorem C3_witness :
    (axisLockFixture.axis Axis.roll).input = some 0 ∧
    (fun _ : Nat => some (1 : ℚ)) 0 = some 1 ∧
    (axisLockFixture.axis Axis.roll).stabilizationMode = .axisLock ∧
    0 ≤ (axisLockFixture.axis Axis.roll).inputRange ∧
    ((|1 * (axisLockFixture.axis Axis.roll).inputRate| ≤ axisLockFixture.maxAxisLockRate →
      processInput axisLockFixture 1000 (fun _ => some 1) 0 Axis.roll = 0) ∧
    (axisLockFixture.maxAxisLockRate < |1 * (axisLockFixture.axis Axis.roll).inputRate| →
      processInput axisLockFixture 1000 (fun _ => some 1) 0 Axis.roll =
        bound (0 + 1 * (axisLockFixture.axis Axis.roll).inputRate * 1000 / 1000)
          (axisLockFixture.axis Axis.roll).inputRange ∧
      |processInput axisLockFixture 1000 (fun _ => some 1) 0 Axis.roll| ≤
        (axisLockFixture.axis Axis.roll).inputRange)) :=
  ⟨rfl, rfl, rfl, by norm_num [axisLockFixture],
    C3_axislock axisLockFixture 1000 1 0 Axis.roll 0 (fun _ => some 1) rfl rfl rfl
      (by norm_num [axisLockFixture])⟩

/-- C4: in RollPitchMixed geometry channel 1 is ((1 - elevonPitch) + elevonRoll)/2 when servo 1 pitch reversal is set and (elevonPitch + elevonRoll)/2 otherwise, and channel 2 is ((1 - elevonPitch) - elevonRoll)/2 when servo 2 pitch reversal is set and (elevonPitch - elevonRoll)/2 otherwise; at elevonRoll = 0.2 and elevonPitch = 0.6 the channels are 0.4 and 0.2 with no reversal and 0.3 and 0.1 with both flags set. -/
theorem C4_mixer (cameraStab : CameraStabSettingsData) (thisSysTime tickRateMs : Nat)
    (accessoryGet : Nat → Option ℚ) (attitudeState : Axis → ℚ) (csd : CameraStab_data)
    (hmix : cameraStab.gimbalType = GimbalType.rollPitchMixed) :
    (let dT_ms := dT_millis thisSysTime csd.lastSysTime tickRateMs
     let csd0 : CameraStab_data := { csd with lastSysTime := thisSysTime }
     let stepRoll := axisStep cameraStab dT_ms accessoryGet attitudeState csd0 .roll
     let stepPitch := axisStep cameraStab dT_ms accessoryGet attitudeState stepRoll.1 .pitch
     ((attitudeUpdated cameraStab thisSysTime tickRateMs accessoryGet attitudeState csd).2.rollOrServo1 =
        (if cameraStab.servo1PitchReverse then ((1 - stepPitch.2) + stepRoll.2) / 2
         else (stepPitch.2 + stepRoll.2) / 2)) ∧
     ((attitudeUpdated cameraStab thisSysTime tickRateMs accessoryGet attitudeState csd).2.pitchOrServo2 =
        (if cameraStab.servo2PitchReverse then ((1 - stepPitch.2) - stepRoll.2) / 2
         else (stepPitch.2 - stepRoll.2) / 2))) ∧
    elevonChannel1 false (6/10) (2/10) = 4/10 ∧
    elevonChannel2 false (6/10) (2/10) = 2/10 ∧
    elevonChannel1 true (6/10) (2/10) = 3/10 ∧
    elevonChannel2 true (6/10) (2/10) = 1/10 := by
  refine ⟨⟨?_, ?_⟩, by norm_num [elevonChannel1], by norm_num [elevonChannel2],
    by norm_num [elevonChannel1], by norm_num [elevonChannel2]⟩
  · simp only [attitudeUpdated, hmix, if_pos, elevonChannel1]
  · simp only [attitudeUpdated, hmix, if_pos, elevonChannel2]

/-- C4 applied at a concrete mixed-geometry configuration. -/
theorem C4_witness :
    mixedRev1Settings.gimbalType = GimbalType.rollPitchMixed ∧
    ((let dT_ms := dT_millis 1 zeroCameraStab.lastSysTime 1
      let csd0 : CameraStab_data := { zeroCameraStab with lastSysTime := 1 }
      let stepRoll := axisStep mixedRev1Settings dT_ms (fun _ => none) cexAttitudeState csd0 .roll
      let stepPitch := axisStep mixedRev1Settings dT_ms (fun _ => none) cexAttitudeState stepRoll.1 .pitch
      ((attitudeUpdated mixedRev1Settings 1 1 (fun _ => none) cexAttitudeState
          zeroCameraStab).2.rollOrServo1 =
         (if mixedRev1Settings.servo1PitchReverse then ((1 - stepPitch.2) + stepRoll.2) / 2
          else (stepPitch.2 + stepRoll.2) / 2)) ∧
      ((attitudeUpdated mixedRev1Settings 1 1 (fun _ => none) cexAttitudeState
          zeroCameraStab).2.pitchOrServo2 =
         (if mixedRev1Settings.servo2PitchReverse then ((1 - stepPitch.2) - stepRoll.2) / 2
          else (stepPitch.2 - stepRoll.2) / 2))) ∧
     elevonChannel1 false (6/10) (2/10) = 4/10 ∧
     elevonChannel2 false (6/10) (2/10) = 2/10 ∧
     elevonChannel1 true (6/10) (2/10) = 3/10 ∧
     elevonChannel2 true (6/10) (2/10) = 1/10) :=
  ⟨rfl, C4_mixer mixedRev1Settings 1 1 (fun _ => none) cexAttitudeState zeroCameraStab rfl⟩

/-- C5: with a response time (timeConstant) of 0 the low-pass filter returns the raw attitude sample exactly, for every positive dT and every prior filtered value. -/
theorem C5_lpf_passthrough (filteredPrev dT_ms raw : ℚ) (h : 0 < dT_ms) :
    lpfStep 0 filteredPrev dT_ms raw = raw := by
  unfold lpfStep
  rw [zero_mul, zero_add, zero_add, mul_comm, mul_div_assoc, div_self h.ne', mul_one]

/-- C5 applied at a concrete input. -/
theorem C5_witness : 0 < (10 : ℚ) ∧ lpfStep 0 3 10 7 = 7 :=
  ⟨by norm_num, C5_lpf_passthrough 3 10 7 (by norm_num)⟩

/-- C6 fails on the code: the guard on camerastab.c line 211 tests the address of the ResponseTime array rather than the per-axis value, so it is always true; with responseTime 0, prior attitudeFiltered 1 and raw attitude 2, the tick overwrites the stored attitudeFiltered with the raw sample 2 instead of leaving it unchanged. -/
theorem C6_lpf_state_overwritten :
    (lpfBugSettings.axis Axis.roll).responseTime = 0 ∧
    lpfBugState.attitudeFiltered Axis.roll = 1 ∧
    (attitudeUpdated lpfBugSettings 1 1 (fun _ => none) (fun _ => 2) lpfBugState).1.attitudeFiltered
      Axis.roll = 2 := by
  refine ⟨rfl, rfl, ?_⟩
  norm_num [attitudeUpdated, axisStep, processInput, lpfStep, dT_millis, SAMPLE_PERIOD_MS,
    bound, lpfBugSettings, plainAxisSettings, lpfBugState, Function.update]
  simp

/-- C7: the decay step picks accelTime when the updated accumulator is positive and decelTime otherwise, computes the divisor max 1 (timeConstant / dT), subtracts accumulator / divisor from the accumulator, stores the decayed accumulator back into state, and the final attitude is the acceleration-limited value of the boosted attitude plus the decayed accumulator added a second time. -/
theorem C7_ff_decay (index : Axis) (dT_ms attitude : ℚ)
    (cameraStab : CameraStabSettingsData) (attitudeState : Axis → ℚ)
    (fla flaf facc : ℚ) (hdT : 0 < dT_ms) :
    (applyFeedForward index dT_ms attitude cameraStab attitudeState fla flaf facc).ffFilterAccumulator =
      (facc + (attitude - fla) * (cameraStab.axis index).feedForward *
          gimbalTypeCorrection cameraStab index attitudeState) -
        (facc + (attitude - fla) * (cameraStab.axis index).feedForward *
          gimbalTypeCorrection cameraStab index attitudeState) /
          max 1 ((if 0 < facc + (attitude - fla) * (cameraStab.axis index).feedForward *
              gimbalTypeCorrection cameraStab index attitudeState then
            (cameraStab.axis index).accelTime else (cameraStab.axis index).decelTime) / dT_ms) ∧
    (applyFeedForward index dT_ms attitude cameraStab attitudeState fla flaf facc).attitude =
      ffAccelLimit
        ((attitude +
            (facc + (attitude - fla) * (cameraStab.axis index).feedForward *
              gimbalTypeCorrection cameraStab index attitudeState)) +
          (applyFeedForward index dT_ms attitude cameraStab attitudeState fla flaf facc).ffFilterAccumulator)
        flaf (cameraStab.maxAccel * dT_ms / 1000) := by
  have hring : cameraStab.maxAccel * (1 / 1000) * dT_ms = cameraStab.maxAccel * dT_ms / 1000 := by
    ring
  constructor
  · simp only [applyFeedForward, ffDecay, ite_lt_one_eq_max]
  · simp only [applyFeedForward, ffDecay, ite_lt_one_eq_max, hring]

/-- C7 applied at a concrete input. -/
theorem C7_witness :
    0 < (2 : ℚ) ∧
    ((applyFeedForward Axis.roll 2 7 ffFixture (fun _ => 0) 0 0 0).ffFilterAccumulator =
      (0 + (7 - 0) * (ffFixture.axis Axis.roll).feedForward *
          gimbalTypeCorrection ffFixture Axis.roll (fun _ => 0)) -
        (0 + (7 - 0) * (ffFixture.axis Axis.roll).feedForward *
          gimbalTypeCorrection ffFixture Axis.roll (fun _ => 0)) /
          max 1 ((if 0 < 0 + (7 - 0) * (ffFixture.axis Axis.roll).feedForward *
              gimbalTypeCorrection ffFixture Axis.roll (fun _ => 0) then
            (ffFixture.axis Axis.roll).accelTime else (ffFixture.axis Axis.roll).decelTime) / 2) ∧
    (applyFeedForward Axis.roll 2 7 ffFixture (fun _ => 0) 0 0 0).attitude =
      ffAccelLimit
        ((7 + (0 + (7 - 0) * (ffFixture.axis Axis.roll).feedForward *
              gimbalTypeCorrection ffFixture Axis.roll (fun _ => 0))) +
          (applyFeedForward Axis.roll 2 7 ffFixture (fun _ => 0) 0 0 0).ffFilterAccumulator)
        0 (ffFixture.maxAccel * 2 / 1000)) :=
  ⟨by norm_num, C7_ff_decay Axis.roll 2 7 ffFixture (fun _ => 0) 0 0 0 (by norm_num)⟩

/-- C8: dT is always positive: it is the tick difference scaled by the tick period when the clock advanced, and the nominal 10 ms sample period when the clock is non-advancing or reversed. -/
theorem C8_dT_positive (thisSysTime lastSysTime tickRateMs : Nat)
    (ht : 0 < tickRateMs) :
    0 < dT_millis thisSysTime lastSysTime tickRateMs ∧
    (lastSysTime < thisSysTime →
      dT_millis thisSysTime lastSysTime tickRateMs =
        (((thisSysTime - lastSysTime) * tickRateMs : ℕ) : ℚ)) ∧
    (thisSysTime ≤ lastSysTime →
      dT_millis thisSysTime lastSysTime tickRateMs = 10) := by
  unfold dT_millis SAMPLE_PERIOD_MS
  rcases lt_or_le lastSysTime thisSysTime with h | h
  · rw [if_pos h]
    refine ⟨?_, fun _ => rfl, fun h2 => absurd h (not_lt.mpr h2)⟩
    have : 0 < (thisSysTime - lastSysTime) * tickRateMs :=
      Nat.mul_pos (Nat.sub_pos_of_lt h) ht
    exact_mod_cast this
  · rw [if_neg (not_lt.mpr h)]
    exact ⟨by norm_num, fun h2 => absurd h2 (not_lt.mpr h), fun _ => rfl⟩

/-- C8 applied at a concrete input. -/
theorem C8_witness :
    (0 : Nat) < 1 ∧
    (0 < dT_millis 5 2 1 ∧
      (2 < 5 → dT_millis 5 2 1 = (((5 - 2) * 1 : ℕ) : ℚ)) ∧
      (5 ≤ 2 → dT_millis 5 2 1 = 10)) :=
  ⟨by norm_num, C8_dT_positive 5 2 1 (by norm_num)⟩

/-- C9: when the accessory fetch fails for an axis with a configured input source, the stored trim values are unchanged and the whole axis step behaves exactly as if no input source were configured for that axis, still producing its output. -/
theorem C9_fetch_failure (cameraStab : CameraStabSettingsData) (dT_ms : ℚ)
    (accessoryGet : Nat → Option ℚ) (attitudeState : Axis → ℚ)
    (csd : CameraStab_data) (i : Axis) (ch : Nat)
    (hin : (cameraStab.axis i).input = some ch) (hacc : accessoryGet ch = none) :
    (axisStep cameraStab dT_ms accessoryGet attitudeState csd i).1.inputs = csd.inputs ∧
    axisStep cameraStab dT_ms accessoryGet attitudeState csd i =
      axisStep (inputNone cameraStab i) dT_ms accessoryGet attitudeState csd i := by
  have hpi : processInput cameraStab dT_ms accessoryGet (csd.inputs i) i = csd.inputs i := by
    simp only [processInput, hin, hacc]
  have hpi2 : processInput (inputNone cameraStab i) dT_ms accessoryGet (csd.inputs i) i =
      csd.inputs i := by
    simp only [processInput, inputNone, Function.update_same]
  constructor
  · simp only [axisStep, hpi, Function.update_eq_self]
    split <;> rfl
  · simp only [axisStep, hpi, hpi2, inputNone_responseTime, inputNone_feedForward,
      inputNone_applyFeedForward, inputNone_outputRange]

/-- C9 applied at a concrete input. -/
theorem C9_witness :
    (axisLockFixture.axis Axis.roll).input = some 0 ∧
    (fun _ : Nat => (none : Option ℚ)) 0 = none ∧
    ((axisStep axisLockFixture 10 (fun _ => none) (fun _ => 0) zeroCameraStab Axis.roll).1.inputs
        = zeroCameraStab.inputs ∧
      axisStep axisLockFixture 10 (fun _ => none) (fun _ => 0) zeroCameraStab Axis.roll =
        axisStep (inputNone axisLockFixture Axis.roll) 10 (fun _ => none) (fun _ => 0)
          zeroCameraStab Axis.roll) :=
  ⟨rfl, rfl, C9_fetch_failure axisLockFixture 10 (fun _ => none) (fun _ => 0) zeroCameraStab
    Axis.roll 0 rfl rfl⟩

/-- C10: the division-checked variant of the axis step agrees with the unguarded code exactly when the axis's configured output range is non-zero and, when feed-forward is active in YawRollPitch geometry on Roll or YawPitchRoll geometry on Pitch, the orthogonal axis's output range is also non-zero; outside this precondition the code reaches a division with divisor zero. -/
theorem C10_unguarded_divisions (cameraStab : CameraStabSettingsData) (dT_ms : ℚ)
    (accessoryGet : Nat → Option ℚ) (attitudeState : Axis → ℚ)
    (csd : CameraStab_data) (i : Axis) :
    axisStepChecked cameraStab dT_ms accessoryGet attitudeState csd i =
        some (axisStep cameraStab dT_ms accessoryGet attitudeState csd i) ↔
      ((cameraStab.axis i).outputRange ≠ 0 ∧
       ((cameraStab.axis i).feedForward ≠ 0 →
          cameraStab.gimbalType = GimbalType.yawRollPitch → i = Axis.roll →
          (cameraStab.axis Axis.pitch).outputRange ≠ 0) ∧
       ((cameraStab.axis i).feedForward ≠ 0 →
          cameraStab.gimbalType = GimbalType.yawPitchRoll → i = Axis.pitch →
          (cameraStab.axis Axis.roll).outputRange ≠ 0)) := by
  by_cases hor : (cameraStab.axis i).outputRange = 0
  · simp [axisStepChecked, hor]
  · by_cases hff : (cameraStab.axis i).feedForward = 0
    · simp [axisStepChecked, axisStep, hor, hff]
    · rcases gimbalTypeCorrectionChecked_none_or cameraStab i attitudeState with h | h
      · have hnone : applyFeedForwardChecked i dT_ms
            (lpfStep (cameraStab.axis i).responseTime (csd.attitudeFiltered i) dT_ms
              (attitudeState i))
            cameraStab attitudeState (csd.ffLastAttitude i) (csd.ffLastAttitudeFiltered i)
            (csd.ffFilterAccumulator i) = none := by
          simp [applyFeedForwardChecked, h]
        have hniff := (gimbalTypeCorrectionChecked_some_iff cameraStab i attitudeState).not
        rw [h] at hniff
        simp only [axisStepChecked, axisStep, hor, hff]
        simp [hnone, hor, hff]
        intro h1
        have : ¬((cameraStab.gimbalType = GimbalType.yawRollPitch → i = Axis.roll →
            (cameraStab.axis Axis.pitch).outputRange ≠ 0) ∧
            (cameraStab.gimbalType = GimbalType.yawPitchRoll → i = Axis.pitch →
            (cameraStab.axis Axis.roll).outputRange ≠ 0)) := by
          apply hniff.mp
          simp
        tauto
      · have hsome := (applyFeedForwardChecked_some_iff i dT_ms
            (lpfStep (cameraStab.axis i).responseTime (csd.attitudeFiltered i) dT_ms
              (attitudeState i))
            cameraStab attitudeState (csd.ffLastAttitude i) (csd.ffLastAttitudeFiltered i)
            (csd.ffFilterAccumulator i)).mpr h
        have hcond := (gimbalTypeCorrectionChecked_some_iff cameraStab i attitudeState).mp h
        simp only [axisStepChecked, axisStep, hor, hff]
        simp [hsome, hor, hff]
        tauto

